import Mathlib

/-!
Shallow embedding of `vniche/aws-container-pulumi` (src/service.ts, src/types.ts).

The repository builds a declarative resource graph for an AWS Fargate-backed
ECS service: each `new aws.xyz.Resource(logicalName, props, opts)` call is
modelled as a record value capturing the logical name, the properties the
source sets, and the explicit `dependsOn` edges.  Pulumi `Output<string>`
values (deferred cloud attributes such as ARNs, ids and DNS names) are
modelled by the symbolic string type `PStr`, resolved against an environment
mapping (resource logical name, attribute) pairs to strings.

The ambient Pulumi stack name (`pulumi.getStack()`) and the component's
unique name (`this.name`) are threaded explicitly as parameters.
-/

namespace AwsContainer

/-- A deferred/placeholder string: either a literal, a symbolic attribute of a
named resource (e.g. `alb.dnsName`), or a concatenation (modelling
`pulumi.interpolate`). -/
inductive PStr where
  | lit (s : String)
  | attr (res : String) (field : String)
  | cat (a b : PStr)
deriving Repr, DecidableEq

/-- Resolve a deferred string against an environment that supplies the value
of every (resource, attribute) pair — this is what the external provisioning
engine does at apply time. -/
def PStr.resolve (env : String → String → String) : PStr → String
  | .lit s => s
  | .attr r f => env r f
  | .cat a b => a.resolve env ++ b.resolve env

/-- Tag maps (`Tags` in src/types.ts): an optional map of string keys to
string values, modelled as an association list. -/
def Tags := Option (List (String × String))

instance : DecidableEq Tags :=
  inferInstanceAs (DecidableEq (Option (List (String × String))))

/-- `const stackName = (name: string) => \x7b`${name}-${stack}`\x7d` with the
ambient `stack = pulumi.getStack()` passed explicitly. -/
def stackName (stack : String) (name : String) : String :=
  name ++ "-" ++ stack

/-- JavaScript truthiness of an optional string: `undefined` and `""` are
falsy.  This models `hostedZone ? _ : _` in service.ts. -/
def strTruthy : Option String → Bool
  | none => false
  | some s => s ≠ ""

/-- JavaScript `v || d` for an optional string operand: yields `d` when `v`
is `undefined` or the empty string. -/
def jsOrStr (v : Option String) (d : String) : String :=
  match v with
  | none => d
  | some s => if s = "" then d else s

/-- JavaScript `v || d` for an optional numeric operand: yields `d` when `v`
is `undefined` or `0`. -/
def jsOrInt (v : Option Int) (d : Int) : Int :=
  match v with
  | none => d
  | some n => if n = 0 then d else n

/-! ## Argument types (src/types.ts) -/

/-- `AutoscalingConfig` from src/types.ts. -/
structure AutoscalingConfig where
  min : Int
  max : Int
  cpuAvgThreshold : Option Int
deriving Repr, DecidableEq

/-- `ServiceConfig & \x7b vpcId, region, subnets, tags \x7d` =
`CreateServiceArgs` from src/types.ts.  `subnets` keeps only each subnet's
resolvable resource id (the source reads `subnet.resource.id`). -/
structure CreateServiceArgs where
  name : String
  image : String
  port : Int
  cpu : Option String
  memory : Option String
  autoscaling : Option AutoscalingConfig
  hostedZone : Option String
  vpcId : PStr
  region : String
  subnets : List PStr
  tags : Tags
deriving DecidableEq

/-- `CreateSecurityGroupArgs` from src/types.ts. -/
structure CreateSecurityGroupArgs where
  serviceName : String
  port : Int
  vpcId : PStr
  lbSecurityGroupId : PStr
  tags : Tags
deriving DecidableEq

/-- `CreateLoadBalancerArgs` from src/types.ts. -/
structure CreateLoadBalancerArgs where
  serviceName : String
  vpcId : PStr
  subnets : List PStr
  hostedZone : Option String
  tags : Tags
deriving DecidableEq

/-! ## Resource specifications (property bags of the `new aws.*` calls) -/

/-- One entry of a security group's `ingress`/`egress` block.  Fields the
source leaves out are the empty list. -/
structure SecurityGroupRuleSpec where
  protocol : String
  fromPort : Int
  toPort : Int
  securityGroups : List PStr
  cidrBlocks : List String
deriving Repr, DecidableEq

/-- Properties of an `aws.ec2.SecurityGroup` resource. -/
structure SecurityGroupSpec where
  logicalName : String
  name : String
  vpcId : PStr
  ingress : List SecurityGroupRuleSpec
  egress : List SecurityGroupRuleSpec
  tags : Tags
deriving DecidableEq

/-- `Service.createSecurityGroup` (src/service.ts lines 37–61): the ECS
service's security group, allowing inbound TCP on the configured port from
the load balancer's security group, and all outbound traffic. -/
def Service.createSecurityGroup (stack : String) (thisName : String)
    (args : CreateSecurityGroupArgs) : SecurityGroupSpec :=
  { logicalName := thisName ++ "-security-group"
  , name := "ecs-" ++ stackName stack args.serviceName
  , vpcId := args.vpcId
  , ingress := [
      { protocol := "tcp"
      , fromPort := args.port
      , toPort := args.port
      , securityGroups := [args.lbSecurityGroupId]
      , cidrBlocks := [] }]
  , egress := [
      { protocol := "all"
      , fromPort := 0
      , toPort := 0
      , securityGroups := []
      , cidrBlocks := ["0.0.0.0/0"] }]
  , tags := args.tags }

/-- Properties of the `aws.lb.LoadBalancer` resource. -/
structure LoadBalancerSpec where
  logicalName : String
  internal : Bool
  securityGroups : List PStr
  subnets : List PStr
  tags : Tags
deriving DecidableEq

/-- Properties of the `aws.lb.TargetGroup` resource. -/
structure TargetGroupSpec where
  logicalName : String
  port : Int
  protocol : String
  targetType : String
  vpcId : PStr
  tags : Tags
deriving DecidableEq

/-- One `defaultActions` entry of the listener. -/
structure ForwardAction where
  type : String
  targetGroupArn : PStr
deriving Repr, DecidableEq

/-- Properties and options of the `aws.lb.Listener` resource.  `dependsOn`
records the logical names of the resources in the listener's explicit
dependency list. -/
structure ListenerSpec where
  logicalName : String
  loadBalancerArn : PStr
  port : Int
  protocol : String
  defaultActions : List ForwardAction
  certificateArn : Option PStr
  tags : Tags
  dependsOn : List String
deriving DecidableEq

/-- One `aliases` entry of a Route 53 record. -/
structure RecordAlias where
  name : PStr
  zoneId : PStr
  evaluateTargetHealth : Bool
deriving Repr, DecidableEq

/-- Properties of an `aws.route53.Record` resource. -/
structure RecordSpec where
  logicalName : String
  name : PStr
  type : String
  zoneId : PStr
  aliases : List RecordAlias
  records : List PStr
  ttl : Option Int
deriving DecidableEq

/-- Properties of the `aws.acm.Certificate` resource. -/
structure CertificateSpec where
  logicalName : String
  domainName : String
  validationMethod : String
  tags : Tags
deriving DecidableEq

/-- Properties and options of the `aws.acm.CertificateValidation` resource.
`dependsOn` records the logical names in its explicit dependency list. -/
structure CertificateValidationSpec where
  logicalName : String
  certificateArn : PStr
  validationRecordFqdns : List PStr
  dependsOn : List String
deriving DecidableEq

/-- The resources created only inside the `if (hostedZone)` branch of
`createLoadBalancer`: alias A-record, certificate, CNAME validation record,
and certificate validation. -/
structure TlsResources where
  dnsRecord : RecordSpec
  cert : CertificateSpec
  validationDNS : RecordSpec
  certificateValidation : CertificateValidationSpec
deriving DecidableEq

/-- All resources created by `Service.createLoadBalancer`. -/
structure LoadBalancerSubgraph where
  albSecurityGroup : SecurityGroupSpec
  alb : LoadBalancerSpec
  albTargetGroup : TargetGroupSpec
  tls : Option TlsResources
  listener : ListenerSpec
deriving DecidableEq

/-- The `LoadBalancer` return value of `createLoadBalancer`
(src/types.ts): security-group id, target-group ARN and the load balancer's
DNS name, all deferred. -/
structure LoadBalancerResult where
  securityGroupId : PStr
  targetGroupArn : PStr
  dnsName : PStr
deriving Repr, DecidableEq

/-- `Service.createLoadBalancer` (src/service.ts lines 70–170).

`exposedPort = hostedZone ? 443 : 80` uses JavaScript truthiness, so an
empty-string `hostedZone` behaves like an absent one (`strTruthy`).  The
zone id obtained from `aws.route53.getZone(\x7b name: hostedZone \x7d)` is
modelled as the symbolic attribute `zoneId` of the external resource
`route53-zone:<hostedZone>`. -/
def Service.createLoadBalancer (stack : String) (thisName : String)
    (args : CreateLoadBalancerArgs) : LoadBalancerSubgraph × LoadBalancerResult :=
  let exposedPort : Int := if strTruthy args.hostedZone then 443 else 80
  let albSecurityGroup : SecurityGroupSpec :=
    { logicalName := thisName ++ "-alb-security-group"
    , name := "alb-" ++ stackName stack args.serviceName
    , vpcId := args.vpcId
    , ingress := [
        { protocol := "tcp"
        , fromPort := exposedPort
        , toPort := exposedPort
        , securityGroups := []
        , cidrBlocks := ["0.0.0.0/0"] }]
    , egress := []
    , tags := args.tags }
  let alb : LoadBalancerSpec :=
    { logicalName := thisName ++ "-app-lb"
    , internal := false
    , securityGroups := [PStr.attr albSecurityGroup.logicalName "id"]
    , subnets := args.subnets
    , tags := args.tags }
  let albTargetGroup : TargetGroupSpec :=
    { logicalName := thisName ++ "-lb-target-group"
    , port := 80
    , protocol := "HTTP"
    , targetType := "ip"
    , vpcId := args.vpcId
    , tags := args.tags }
  let tls : Option TlsResources :=
    match args.hostedZone with
    | some z =>
      if z = "" then none else
      let serviceDomain := stackName stack args.serviceName ++ "." ++ z
      let zoneId := PStr.attr ("route53-zone:" ++ z) "zoneId"
      let certLogical := thisName ++ "-certificate"
      some
        { dnsRecord :=
          { logicalName := thisName ++ "-dns-record"
          , name := PStr.lit serviceDomain
          , type := "A"
          , zoneId := zoneId
          , aliases := [
              { name := PStr.attr alb.logicalName "dnsName"
              , zoneId := PStr.attr alb.logicalName "zoneId"
              , evaluateTargetHealth := true }]
          , records := []
          , ttl := none }
        , cert :=
          { logicalName := certLogical
          , domainName := serviceDomain
          , validationMethod := "DNS"
          , tags := args.tags }
        , validationDNS :=
          { logicalName := thisName ++ "-certificate-dns-validation"
          , name := PStr.attr certLogical "domainValidationOptions.0.resourceRecordName"
          , type := "CNAME"
          , zoneId := zoneId
          , aliases := []
          , records := [PStr.attr certLogical "domainValidationOptions.0.resourceRecordValue"]
          , ttl := some 300 }
        , certificateValidation :=
          { logicalName := thisName ++ "-certificate-validation"
          , certificateArn := PStr.attr certLogical "arn"
          , validationRecordFqdns :=
              [PStr.attr certLogical "domainValidationOptions.0.resourceRecordName"]
          , dependsOn := [thisName ++ "-certificate-dns-validation"] } }
    | none => none
  let listener : ListenerSpec :=
    { logicalName := "listener"
    , loadBalancerArn := PStr.attr alb.logicalName "arn"
    , port := exposedPort
    , protocol := if strTruthy args.hostedZone then "HTTPS" else "HTTP"
    , defaultActions := [
        { type := "forward"
        , targetGroupArn := PStr.attr albTargetGroup.logicalName "arn" }]
    , certificateArn := tls.map (fun t => PStr.attr t.cert.logicalName "arn")
    , tags := args.tags
    , dependsOn := albTargetGroup.logicalName ::
        (match tls with
         | some t => [t.certificateValidation.logicalName]
         | none => []) }
  ( { albSecurityGroup := albSecurityGroup
    , alb := alb
    , albTargetGroup := albTargetGroup
    , tls := tls
    , listener := listener }
  , { securityGroupId := PStr.attr albSecurityGroup.logicalName "id"
    , targetGroupArn := PStr.attr albTargetGroup.logicalName "arn"
    , dnsName := PStr.attr alb.logicalName "dnsName" } )

/-- Properties of the `aws.ecs.Cluster` resource. -/
structure ClusterSpec where
  logicalName : String
  name : String
  tags : Tags
deriving DecidableEq

/-- Properties of the `aws.iam.Policy` resource.  The policy document (a
JSON string produced under `identity.apply`) is modelled by its one
statement: the allowed actions and the two log-group resource ARNs, which
interpolate the deferred caller account id. -/
structure PolicySpec where
  logicalName : String
  actions : List String
  resources : List PStr
  effect : String
  tags : Tags
deriving DecidableEq

/-- Properties of the `aws.iam.Role` resource, keeping the trusted service
principal of its assume-role policy and the attached managed policies. -/
structure RoleSpec where
  logicalName : String
  trustedService : String
  managedPolicyArns : List PStr
  tags : Tags
deriving DecidableEq

/-- One `portMappings` entry of a container definition. -/
structure PortMapping where
  containerPort : Int
  hostPort : Int
  protocol : String
deriving Repr, DecidableEq

/-- The `logConfiguration` block of a container definition. -/
structure LogConfiguration where
  logDriver : String
  createGroup : String
  group : String
  region : String
  streamPrefix : String
deriving Repr, DecidableEq

/-- One element of the task definition's `containerDefinitions` JSON
array. -/
structure ContainerDefinition where
  name : String
  image : String
  portMappings : List PortMapping
  logConfiguration : LogConfiguration
deriving Repr, DecidableEq

/-- Properties of the `aws.ecs.TaskDefinition` resource. -/
structure TaskDefinitionSpec where
  logicalName : String
  family : String
  cpu : String
  memory : String
  networkMode : String
  requiresCompatibilities : List String
  executionRoleArn : PStr
  containerDefinitions : List ContainerDefinition
  tags : Tags
deriving DecidableEq

/-- Properties of the standalone `aws.ec2.SecurityGroupRule` resource
(the ALB → ECS egress rule). -/
structure SecurityGroupRuleResource where
  logicalName : String
  protocol : String
  type : String
  fromPort : Int
  toPort : Int
  securityGroupId : PStr
  sourceSecurityGroupId : PStr
deriving Repr, DecidableEq

/-- One `loadBalancers` entry of the ECS service. -/
structure ServiceLoadBalancerAttachment where
  targetGroupArn : PStr
  containerName : String
  containerPort : Int
deriving Repr, DecidableEq

/-- Properties of the `aws.ecs.Service` resource. -/
structure EcsServiceSpec where
  logicalName : String
  cluster : PStr
  launchType : String
  taskDefinition : PStr
  assignPublicIp : Bool
  subnets : List PStr
  securityGroups : List PStr
  waitForSteadyState : Bool
  loadBalancers : List ServiceLoadBalancerAttachment
  tags : Tags
deriving DecidableEq

/-- Properties of the `aws.appautoscaling.Target` resource. -/
structure ScalingTargetSpec where
  logicalName : String
  maxCapacity : Int
  minCapacity : Int
  resourceId : PStr
  scalableDimension : String
  serviceNamespace : String
deriving Repr, DecidableEq

/-- Properties of the `aws.appautoscaling.Policy` resource. -/
structure ScalingPolicySpec where
  logicalName : String
  resourceId : PStr
  policyType : String
  scalableDimension : String
  serviceNamespace : String
  targetValue : Int
  predefinedMetricType : String
deriving Repr, DecidableEq

/-- Everything the `Service` constructor creates, together with its `url`
output. -/
structure ServiceResources where
  cluster : ClusterSpec
  loadBalancer : LoadBalancerSubgraph
  lbResult : LoadBalancerResult
  securityGroup : SecurityGroupSpec
  taskExecPolicy : PolicySpec
  taskExecRole : RoleSpec
  taskDefinition : TaskDefinitionSpec
  albEcsEgress : SecurityGroupRuleResource
  appService : EcsServiceSpec
  scalingTarget : Option ScalingTargetSpec
  scalingPolicy : Option ScalingPolicySpec
  url : PStr
deriving DecidableEq

/-- `Service.validateServiceArgs` (src/service.ts lines 26–28): the body is
only a `// TODO: validate args` comment, so validation accepts every
argument value and never throws. -/
def Service.validateServiceArgs (_args : CreateServiceArgs) : Except String Unit :=
  Except.ok ()

/-- The `Service` constructor (src/service.ts lines 179–371).  `stack` is
the ambient `pulumi.getStack()` value and `name` the component's unique
name (`this.name`).  The deferred caller account id
(`aws.getCallerIdentityOutput()`) is the symbolic attribute
`aws.accountId`. -/
def Service.construct (stack : String) (name : String)
    (args : CreateServiceArgs) : ServiceResources :=
  let serviceName := args.name
  let cluster : ClusterSpec :=
    { logicalName := name ++ "-cluster"
    , name := stackName stack serviceName
    , tags := args.tags }
  let lb := Service.createLoadBalancer stack name
    { serviceName := serviceName
    , hostedZone := args.hostedZone
    , vpcId := args.vpcId
    , subnets := args.subnets
    , tags := args.tags }
  let lbSecurityGroupId := lb.2.securityGroupId
  let lbTargetGroupArn := lb.2.targetGroupArn
  let dnsName := lb.2.dnsName
  let securityGroup := Service.createSecurityGroup stack name
    { serviceName := stackName stack serviceName
    , port := args.port
    , vpcId := args.vpcId
    , lbSecurityGroupId := lbSecurityGroupId
    , tags := args.tags }
  let accountId := PStr.attr "aws" "accountId"
  let taskExecPolicy : PolicySpec :=
    { logicalName := name ++ "-task-exec-policy"
    , actions := ["logs:CreateLogGroup", "logs:CreateLogStream"]
    , resources := [
        PStr.cat (PStr.lit ("arn:aws:logs:" ++ args.region ++ ":"))
          (PStr.cat accountId
            (PStr.lit (":log-group:awslogs-" ++ stackName stack serviceName)))
      , PStr.cat (PStr.lit ("arn:aws:logs:" ++ args.region ++ ":"))
          (PStr.cat accountId
            (PStr.lit (":log-group:awslogs-" ++ stackName stack serviceName
              ++ ":log-stream:*")))]
    , effect := "Allow"
    , tags := args.tags }
  let role : RoleSpec :=
    { logicalName := name ++ "-task-exec-role"
    , trustedService := "ecs-tasks.amazonaws.com"
    , managedPolicyArns := [PStr.attr taskExecPolicy.logicalName "arn"]
    , tags := args.tags }
  let taskDefinition : TaskDefinitionSpec :=
    { logicalName := name ++ "-task-definitions"
    , family := "fargate-task-definition"
    , cpu := jsOrStr args.cpu "256"
    , memory := jsOrStr args.memory "512"
    , networkMode := "awsvpc"
    , requiresCompatibilities := ["FARGATE"]
    , executionRoleArn := PStr.attr role.logicalName "arn"
    , containerDefinitions := [
        { name := stackName stack serviceName
        , image := args.image
        , portMappings := [
            { containerPort := args.port
            , hostPort := args.port
            , protocol := "tcp" }]
        , logConfiguration :=
          { logDriver := "awslogs"
          , createGroup := "true"
          , group := "awslogs-" ++ stackName stack serviceName
          , region := args.region
          , streamPrefix := "awslogs-" ++ stackName stack serviceName
              ++ "-" ++ serviceName } }]
    , tags := args.tags }
  let albEcsEgress : SecurityGroupRuleResource :=
    { logicalName := name ++ "-alb-ecs-egress"
    , protocol := "tcp"
    , type := "egress"
    , fromPort := args.port
    , toPort := args.port
    , securityGroupId := lbSecurityGroupId
    , sourceSecurityGroupId := PStr.attr securityGroup.logicalName "id" }
  let service : EcsServiceSpec :=
    { logicalName := name ++ "-app-service"
    , cluster := PStr.attr cluster.logicalName "id"
    , launchType := "FARGATE"
    , taskDefinition := PStr.attr taskDefinition.logicalName "arn"
    , assignPublicIp := true
    , subnets := args.subnets
    , securityGroups := [PStr.attr securityGroup.logicalName "id"]
    , waitForSteadyState := false
    , loadBalancers := [
        { targetGroupArn := lbTargetGroupArn
        , containerName := stackName stack serviceName
        , containerPort := args.port }]
    , tags := args.tags }
  let scalingResourceId : PStr :=
    PStr.cat (PStr.lit "service/")
      (PStr.cat (PStr.attr cluster.logicalName "name")
        (PStr.cat (PStr.lit "/") (PStr.attr service.logicalName "name")))
  let scalingTarget : Option ScalingTargetSpec :=
    args.autoscaling.map (fun ac =>
      { logicalName := name ++ "-scaling-target"
      , maxCapacity := ac.max
      , minCapacity := ac.min
      , resourceId := scalingResourceId
      , scalableDimension := "ecs:service:DesiredCount"
      , serviceNamespace := "ecs" })
  let scalingPolicy : Option ScalingPolicySpec :=
    args.autoscaling.map (fun ac =>
      { logicalName := name ++ "-scaling-policy"
      , resourceId := scalingResourceId
      , policyType := "TargetTrackingScaling"
      , scalableDimension := "ecs:service:DesiredCount"
      , serviceNamespace := "ecs"
      , targetValue := jsOrInt ac.cpuAvgThreshold 75
      , predefinedMetricType := "ECSServiceAverageCPUUtilization" })
  let url : PStr :=
    match args.hostedZone with
    | some z =>
      if z = "" then PStr.cat (PStr.lit "http://") dnsName
      else PStr.lit ("https://" ++ stackName stack serviceName ++ "." ++ z)
    | none => PStr.cat (PStr.lit "http://") dnsName
  { cluster := cluster
  , loadBalancer := lb.1
  , lbResult := lb.2
  , securityGroup := securityGroup
  , taskExecPolicy := taskExecPolicy
  , taskExecRole := role
  , taskDefinition := taskDefinition
  , albEcsEgress := albEcsEgress
  , appService := service
  , scalingTarget := scalingTarget
  , scalingPolicy := scalingPolicy
  , url := url }

/-! ## Concrete configurations and environments for evaluation -/

/-- The README's example configuration, with a hosted zone (TLS path). -/
def cfgTLS : CreateServiceArgs :=
  { name := "nginx"
  , image := "nginx:latest"
  , port := 80
  , cpu := some "256"
  , memory := some "512"
  , autoscaling := some { min := 1, max := 5, cpuAvgThreshold := some 50 }
  , hostedZone := some "labs.example.com"
  , vpcId := PStr.attr "network" "vpcId"
  , region := "us-east-1"
  , subnets := [PStr.attr "subnet-a" "id", PStr.attr "subnet-b" "id"]
  , tags := none }

/-- The same configuration without `hostedZone`, `autoscaling` or explicit
`cpu`/`memory`. -/
def cfgHTTP : CreateServiceArgs :=
  { cfgTLS with hostedZone := none, autoscaling := none, cpu := none, memory := none }

/-- A configuration whose `hostedZone` is set to the empty string. -/
def cfgEmptyHZ : CreateServiceArgs :=
  { cfgTLS with hostedZone := some "" }

/-- A configuration whose autoscaling `cpuAvgThreshold` is explicitly 0. -/
def cfgZeroThreshold : CreateServiceArgs :=
  { cfgHTTP with autoscaling := some { min := 1, max := 5, cpuAvgThreshold := some 0 } }

/-- A configuration whose `cpu` and `memory` are explicitly the empty
string. -/
def cfgEmptyCpu : CreateServiceArgs :=
  { cfgHTTP with cpu := some "", memory := some "" }

/-- A sample resolution environment for deferred attributes. -/
def env0 : String → String → String := fun res field => res ++ "/" ++ field

/-- The logical names of every resource a `Service` creates other than the
listener: the ten unconditional resources, the four TLS-branch resources
when present, and the autoscaling target/policy when present. -/
def ServiceResources.otherLogicalNames (r : ServiceResources) : List String :=
  [r.cluster.logicalName
  , r.loadBalancer.albSecurityGroup.logicalName
  , r.loadBalancer.alb.logicalName
  , r.loadBalancer.albTargetGroup.logicalName
  , r.securityGroup.logicalName
  , r.taskExecPolicy.logicalName
  , r.taskExecRole.logicalName
  , r.taskDefinition.logicalName
  , r.albEcsEgress.logicalName
  , r.appService.logicalName]
  ++ (match r.loadBalancer.tls with
      | some t => [t.dnsRecord.logicalName, t.cert.logicalName,
                   t.validationDNS.logicalName, t.certificateValidation.logicalName]
      | none => [])
  ++ (match r.scalingTarget with | some t => [t.logicalName] | none => [])
  ++ (match r.scalingPolicy with | some p => [p.logicalName] | none => [])

/-- String concatenation is associative (used to normalise doubly
stack-qualified names). -/
theorem string_append_assoc (a b c : String) : a ++ b ++ c = a ++ (b ++ c) := by
  rcases a with ⟨a⟩; rcases b with ⟨b⟩; rcases c with ⟨c⟩
  show String.mk (a ++ b ++ c) = String.mk (a ++ (b ++ c))
  rw [List.append_assoc]

/-! ## Claims -/

/-- C7: for every input (network id, service name, port, peer
security-group id), the security group builder produces exactly one ingress
rule allowing TCP with fromPort = toPort = the given port, sourced exactly
from the given peer security group, and egress rules allowing all protocols
to 0.0.0.0/0. -/
theorem C7_security_group_rules (stack : String) (thisName : String)
    (args : CreateSecurityGroupArgs) :
    (Service.createSecurityGroup stack thisName args).ingress =
      [{ protocol := "tcp"
       , fromPort := args.port
       , toPort := args.port
       , securityGroups := [args.lbSecurityGroupId]
       , cidrBlocks := [] }] ∧
    (Service.createSecurityGroup stack thisName args).egress =
      [{ protocol := "all"
       , fromPort := 0
       , toPort := 0
       , securityGroups := []
       , cidrBlocks := ["0.0.0.0/0"] }] :=
  ⟨rfl, rfl⟩

/-- C8: for every argument value — including invalid ports, empty names,
malformed images, and zero or negative autoscaling bounds — the argument
validator performs no check and never rejects, and construction always
proceeds to issue resource-creation requests (here: the ECS service
request is always produced). -/
theorem C8_validator_never_rejects (stack : String) (name : String)
    (args : CreateServiceArgs) :
    Service.validateServiceArgs args = Except.ok () ∧
    (Service.construct stack name args).appService.logicalName =
      name ++ "-app-service" ∧
    (Service.construct stack name args).cluster.logicalName =
      name ++ "-cluster" :=
  ⟨rfl, rfl, rfl⟩

/-- C6: for every configuration, the task definition contains exactly one
container definition with exactly one port mapping, whose container port
and host port both equal the configured port, with protocol TCP. -/
theorem C6_single_port_mapping (stack : String) (name : String)
    (args : CreateServiceArgs) :
    ∃ cd, (Service.construct stack name args).taskDefinition.containerDefinitions
        = [cd] ∧
      cd.portMappings =
        [{ containerPort := args.port, hostPort := args.port, protocol := "tcp" }] :=
  ⟨_, rfl, rfl⟩

/-- C5 (amended): the task definition's cpu defaults to "256" and memory to
"512" when omitted, and explicit **non-empty** values round-trip exactly;
an explicit empty string behaves like an omitted value because the source
uses JavaScript `||` defaulting. -/
theorem C5_cpu_memory_defaults (stack : String) (name : String)
    (args : CreateServiceArgs) :
    (args.cpu = none →
      (Service.construct stack name args).taskDefinition.cpu = "256") ∧
    (args.memory = none →
      (Service.construct stack name args).taskDefinition.memory = "512") ∧
    (∀ c, args.cpu = some c → c ≠ "" →
      (Service.construct stack name args).taskDefinition.cpu = c) ∧
    (∀ m, args.memory = some m → m ≠ "" →
      (Service.construct stack name args).taskDefinition.memory = m) := by
  refine ⟨fun h => ?_, fun h => ?_, fun c hc hne => ?_, fun m hm hne => ?_⟩
  · show jsOrStr args.cpu "256" = "256"
    rw [h]; rfl
  · show jsOrStr args.memory "512" = "512"
    rw [h]; rfl
  · show jsOrStr args.cpu "256" = c
    rw [hc]; simp [jsOrStr, hne]
  · show jsOrStr args.memory "512" = m
    rw [hm]; simp [jsOrStr, hne]

/-- C5 witness: on a configuration omitting cpu/memory the defaults appear,
and on the README configuration the explicit non-empty values "256"/"512"
round-trip. -/
theorem C5_cpu_memory_defaults_witness :
    (Service.construct "dev" "service" cfgHTTP).taskDefinition.cpu = "256" ∧
    (Service.construct "dev" "service" cfgHTTP).taskDefinition.memory = "512" ∧
    (Service.construct "dev" "service" cfgTLS).taskDefinition.cpu = "256" ∧
    (Service.construct "dev" "service" cfgTLS).taskDefinition.memory = "512" :=
  ⟨(C5_cpu_memory_defaults "dev" "service" cfgHTTP).1 rfl
  , (C5_cpu_memory_defaults "dev" "service" cfgHTTP).2.1 rfl
  , (C5_cpu_memory_defaults "dev" "service" cfgTLS).2.2.1 "256" rfl (by decide)
  , (C5_cpu_memory_defaults "dev" "service" cfgTLS).2.2.2 "512" rfl (by decide)⟩

/-- C5 counterexample: a configuration that explicitly sets cpu and memory
to the empty string does not get those explicit values back — the task
definition holds the defaults "256"/"512" instead. -/
theorem C5_counterexample :
    cfgEmptyCpu.cpu = some "" ∧ cfgEmptyCpu.memory = some "" ∧
    (Service.construct "dev" "service" cfgEmptyCpu).taskDefinition.cpu = "256" ∧
    (Service.construct "dev" "service" cfgEmptyCpu).taskDefinition.memory = "512" ∧
    (Service.construct "dev" "service" cfgEmptyCpu).taskDefinition.cpu ≠ "" :=
  ⟨rfl, rfl, rfl, rfl, by decide⟩

/-- C9: the service security group's external name suffixes the stack twice:
the constructor passes the already stack-qualified service name into
`createSecurityGroup`, which stack-qualifies it again, yielding
`ecs-<serviceName>-<stack>-<stack>`. -/
theorem C9_double_stack_suffix (stack : String) (name : String)
    (args : CreateServiceArgs) :
    (Service.construct stack name args).securityGroup.name =
      "ecs-" ++ args.name ++ "-" ++ stack ++ "-" ++ stack := by
  show "ecs-" ++ stackName stack (stackName stack args.name) = _
  simp only [stackName, string_append_assoc]

/-- C2: for every configuration without `hostedZone`, the listener has port
80 and protocol HTTP, no certificate, DNS-record or certificate-validation
resources are created, no certificate is attached to the listener, and the
listener's explicit dependency set contains only the target group. -/
theorem C2_http_when_no_hosted_zone (stack : String) (name : String)
    (args : CreateServiceArgs) (h : args.hostedZone = none) :
    (Service.construct stack name args).loadBalancer.listener.port = 80 ∧
    (Service.construct stack name args).loadBalancer.listener.protocol = "HTTP" ∧
    (Service.construct stack name args).loadBalancer.tls = none ∧
    (Service.construct stack name args).loadBalancer.listener.certificateArn = none ∧
    (Service.construct stack name args).loadBalancer.listener.dependsOn =
      [(Service.construct stack name args).loadBalancer.albTargetGroup.logicalName] := by
  simp [Service.construct, Service.createLoadBalancer, strTruthy, h]

/-- C2 witness: the zoneless configuration yields an HTTP listener on port
80 with no TLS resources and only the target group as dependency. -/
theorem C2_http_when_no_hosted_zone_witness :
    (Service.construct "dev" "service" cfgHTTP).loadBalancer.listener.port = 80 ∧
    (Service.construct "dev" "service" cfgHTTP).loadBalancer.listener.protocol = "HTTP" ∧
    (Service.construct "dev" "service" cfgHTTP).loadBalancer.tls = none ∧
    (Service.construct "dev" "service" cfgHTTP).loadBalancer.listener.certificateArn = none ∧
    (Service.construct "dev" "service" cfgHTTP).loadBalancer.listener.dependsOn =
      [(Service.construct "dev" "service" cfgHTTP).loadBalancer.albTargetGroup.logicalName] :=
  C2_http_when_no_hosted_zone "dev" "service" cfgHTTP rfl

/-- C1 (amended): for every configuration whose `hostedZone` is set to a
**non-empty** string, the listener has port 443 and protocol HTTPS, a
certificate resource is created for `<stackQualifiedName>.<hostedZone>`,
and the listener's explicit dependency set contains both the target group
and the certificate-validation resource.  (An empty-string `hostedZone` is
falsy in JavaScript and takes the HTTP branch.) -/
theorem C1_tls_listener (stack : String) (name : String)
    (args : CreateServiceArgs) (z : String)
    (hz : args.hostedZone = some z) (hne : z ≠ "") :
    (Service.construct stack name args).loadBalancer.listener.port = 443 ∧
    (Service.construct stack name args).loadBalancer.listener.protocol = "HTTPS" ∧
    ∃ t, (Service.construct stack name args).loadBalancer.tls = some t ∧
      t.cert.domainName = stackName stack args.name ++ "." ++ z ∧
      t.cert.validationMethod = "DNS" ∧
      (Service.construct stack name args).loadBalancer.albTargetGroup.logicalName
        ∈ (Service.construct stack name args).loadBalancer.listener.dependsOn ∧
      t.certificateValidation.logicalName
        ∈ (Service.construct stack name args).loadBalancer.listener.dependsOn := by
  simp [Service.construct, Service.createLoadBalancer, strTruthy, hz, hne]

/-- C1 witness: the README configuration (hosted zone `labs.example.com`)
yields an HTTPS listener on 443 whose dependency set holds the target group
and the certificate validation, with a certificate for
`nginx-dev.labs.example.com`. -/
theorem C1_tls_listener_witness :
    (Service.construct "dev" "service" cfgTLS).loadBalancer.listener.port = 443 ∧
    (Service.construct "dev" "service" cfgTLS).loadBalancer.listener.protocol = "HTTPS" ∧
    ∃ t, (Service.construct "dev" "service" cfgTLS).loadBalancer.tls = some t ∧
      t.cert.domainName = stackName "dev" cfgTLS.name ++ "." ++ "labs.example.com" ∧
      t.cert.validationMethod = "DNS" ∧
      (Service.construct "dev" "service" cfgTLS).loadBalancer.albTargetGroup.logicalName
        ∈ (Service.construct "dev" "service" cfgTLS).loadBalancer.listener.dependsOn ∧
      t.certificateValidation.logicalName
        ∈ (Service.construct "dev" "service" cfgTLS).loadBalancer.listener.dependsOn :=
  C1_tls_listener "dev" "service" cfgTLS "labs.example.com" rfl (by decide)

/-- C1 counterexample: with `hostedZone` set to the empty string the
configuration has `hostedZone` set, yet the listener is plain HTTP on port
80 and no TLS resources are created — the claim as stated fails. -/
theorem C1_counterexample :
    cfgEmptyHZ.hostedZone.isSome = true ∧
    (Service.construct "dev" "service" cfgEmptyHZ).loadBalancer.listener.port = 80 ∧
    (Service.construct "dev" "service" cfgEmptyHZ).loadBalancer.listener.protocol = "HTTP" ∧
    (Service.construct "dev" "service" cfgEmptyHZ).loadBalancer.tls = none :=
  ⟨rfl, rfl, rfl, rfl⟩

/-- C3 (amended): the resolved `url` output is
`https://<stackQualifiedName>.<hostedZone>` when `hostedZone` is set to a
non-empty string, and `http://` followed by the load balancer's DNS name
when `hostedZone` is unset **or empty** (an empty string is falsy in
JavaScript and takes the HTTP branch). -/
theorem C3_url (stack : String) (name : String) (args : CreateServiceArgs)
    (env : String → String → String) :
    (∀ z, args.hostedZone = some z → z ≠ "" →
      ((Service.construct stack name args).url).resolve env =
        "https://" ++ stackName stack args.name ++ "." ++ z) ∧
    (args.hostedZone = none →
      ((Service.construct stack name args).url).resolve env =
        "http://" ++ env (name ++ "-app-lb") "dnsName") ∧
    (args.hostedZone = some "" →
      ((Service.construct stack name args).url).resolve env =
        "http://" ++ env (name ++ "-app-lb") "dnsName") := by
  refine ⟨fun z hz hne => ?_, fun h => ?_, fun h => ?_⟩
  · simp [Service.construct, Service.createLoadBalancer, PStr.resolve, hz, hne,
      string_append_assoc]
  · simp [Service.construct, Service.createLoadBalancer, PStr.resolve, h]
  · simp [Service.construct, Service.createLoadBalancer, PStr.resolve, h]

/-- C3 witness: with hosted zone `labs.example.com` the README configuration
resolves to `https://nginx-dev.labs.example.com`; without a hosted zone the
url resolves to `http://` followed by the ALB's deferred DNS name. -/
theorem C3_url_witness :
    ((Service.construct "dev" "service" cfgTLS).url).resolve env0 =
      "https://" ++ stackName "dev" cfgTLS.name ++ "." ++ "labs.example.com" ∧
    ((Service.construct "dev" "service" cfgHTTP).url).resolve env0 =
      "http://" ++ env0 ("service" ++ "-app-lb") "dnsName" :=
  ⟨(C3_url "dev" "service" cfgTLS env0).1 "labs.example.com" rfl (by decide)
  , (C3_url "dev" "service" cfgHTTP env0).2.1 rfl⟩

/-- C3 counterexample: with `hostedZone` set to the empty string the url's
scheme is `http`, not `https`, although `hostedZone` is present — the claim
as stated fails. -/
theorem C3_counterexample :
    cfgEmptyHZ.hostedZone.isSome = true ∧
    ((Service.construct "dev" "service" cfgEmptyHZ).url).resolve env0 =
      "http://" ++ env0 "service-app-lb" "dnsName" ∧
    ¬ ((Service.construct "dev" "service" cfgEmptyHZ).url).resolve env0 =
      "https://" ++ stackName "dev" cfgEmptyHZ.name ++ "." ++ "" :=
  ⟨rfl, rfl, by decide⟩

/-- C4 (amended): when `autoscaling` is present, exactly one scaling target
is created with minCapacity = min and maxCapacity = max, and exactly one
target-tracking policy whose targetValue equals `cpuAvgThreshold` when that
is present and non-zero, and 75 when it is omitted **or zero** (JavaScript
`||` defaulting); when `autoscaling` is absent, no scaling target and no
scaling policy are created. -/
theorem C4_autoscaling (stack : String) (name : String)
    (args : CreateServiceArgs) :
    (args.autoscaling = none →
      (Service.construct stack name args).scalingTarget = none ∧
      (Service.construct stack name args).scalingPolicy = none) ∧
    (∀ ac, args.autoscaling = some ac →
      ∃ st sp,
        (Service.construct stack name args).scalingTarget = some st ∧
        (Service.construct stack name args).scalingPolicy = some sp ∧
        st.minCapacity = ac.min ∧
        st.maxCapacity = ac.max ∧
        sp.policyType = "TargetTrackingScaling" ∧
        ((ac.cpuAvgThreshold = none ∨ ac.cpuAvgThreshold = some 0) →
          sp.targetValue = 75) ∧
        (∀ v, ac.cpuAvgThreshold = some v → v ≠ 0 → sp.targetValue = v)) := by
  constructor
  · intro h
    constructor <;> simp [Service.construct, h]
  · intro ac hac
    simp only [Service.construct, hac, Option.map_some']
    refine ⟨_, _, rfl, rfl, rfl, rfl, rfl, ?_, ?_⟩
    · rintro (h | h) <;> simp [jsOrInt, h]
    · intro v hv hne
      simp [jsOrInt, hv, hne]

/-- C4 witness: the README configuration (min 1, max 5, threshold 50)
yields a scaling target with bounds 1/5 and a tracking policy whose target
value is 50, while the configuration without autoscaling yields neither
resource. -/
theorem C4_autoscaling_witness :
    ((Service.construct "dev" "service" cfgHTTP).scalingTarget = none ∧
     (Service.construct "dev" "service" cfgHTTP).scalingPolicy = none) ∧
    ∃ st sp,
      (Service.construct "dev" "service" cfgTLS).scalingTarget = some st ∧
      (Service.construct "dev" "service" cfgTLS).scalingPolicy = some sp ∧
      st.minCapacity = 1 ∧ st.maxCapacity = 5 ∧ sp.targetValue = 50 := by
  refine ⟨(C4_autoscaling "dev" "service" cfgHTTP).1 rfl, ?_⟩
  obtain ⟨st, sp, h1, h2, h3, h4, _, _, h7⟩ :=
    (C4_autoscaling "dev" "service" cfgTLS).2
      { min := 1, max := 5, cpuAvgThreshold := some 50 } rfl
  exact ⟨st, sp, h1, h2, h3, h4, h7 50 rfl (by decide)⟩

/-- C4 counterexample: with `cpuAvgThreshold` explicitly 0 the created
policy's targetValue is 75, not the configured 0 — the claim as stated
fails. -/
theorem C4_counterexample :
    cfgZeroThreshold.autoscaling =
      some { min := 1, max := 5, cpuAvgThreshold := some 0 } ∧
    ((Service.construct "dev" "service" cfgZeroThreshold).scalingPolicy.map
      (fun sp => sp.targetValue)) = some 75 ∧
    ¬ ((Service.construct "dev" "service" cfgZeroThreshold).scalingPolicy.map
      (fun sp => sp.targetValue)) = some 0 :=
  ⟨rfl, rfl, by decide⟩

/-- C10: the listener resource always has the fixed logical name
"listener", independent of the component's unique name, while every other
resource's logical name is prefixed with the component's unique name; two
Service instances in the same program therefore produce listeners with
identical logical names. -/
theorem C10_listener_fixed_logical_name (stack : String) (name : String)
    (stack2 : String) (name2 : String) (args args2 : CreateServiceArgs) :
    (Service.construct stack name args).loadBalancer.listener.logicalName =
      "listener" ∧
    (∀ s ∈ (Service.construct stack name args).otherLogicalNames,
      ∃ suffix, s = name ++ suffix) ∧
    (Service.construct stack name args).loadBalancer.listener.logicalName =
      (Service.construct stack2 name2 args2).loadBalancer.listener.logicalName := by
  refine ⟨rfl, ?_, rfl⟩
  obtain ⟨n, img, p, c, m, au, hz, v, reg, sub, tg⟩ := args
  have key : ∃ sfx : List String,
      (Service.construct stack name
        ⟨n, img, p, c, m, au, hz, v, reg, sub, tg⟩).otherLogicalNames
        = sfx.map (fun x => name ++ x) := by
    cases au <;> rcases hz with _ | z
    · exact ⟨["-cluster", "-alb-security-group", "-app-lb", "-lb-target-group",
        "-security-group", "-task-exec-policy", "-task-exec-role",
        "-task-definitions", "-alb-ecs-egress", "-app-service"], rfl⟩
    · by_cases hz0 : z = ""
      · subst hz0
        exact ⟨["-cluster", "-alb-security-group", "-app-lb", "-lb-target-group",
          "-security-group", "-task-exec-policy", "-task-exec-role",
          "-task-definitions", "-alb-ecs-egress", "-app-service"], rfl⟩
      · refine ⟨["-cluster", "-alb-security-group", "-app-lb", "-lb-target-group",
          "-security-group", "-task-exec-policy", "-task-exec-role",
          "-task-definitions", "-alb-ecs-egress", "-app-service",
          "-dns-record", "-certificate", "-certificate-dns-validation",
          "-certificate-validation"], ?_⟩
        simp [Service.construct, Service.createLoadBalancer,
          Service.createSecurityGroup, ServiceResources.otherLogicalNames, hz0]
    · exact ⟨["-cluster", "-alb-security-group", "-app-lb", "-lb-target-group",
        "-security-group", "-task-exec-policy", "-task-exec-role",
        "-task-definitions", "-alb-ecs-egress", "-app-service",
        "-scaling-target", "-scaling-policy"], rfl⟩
    · by_cases hz0 : z = ""
      · subst hz0
        exact ⟨["-cluster", "-alb-security-group", "-app-lb", "-lb-target-group",
          "-security-group", "-task-exec-policy", "-task-exec-role",
          "-task-definitions", "-alb-ecs-egress", "-app-service",
          "-scaling-target", "-scaling-policy"], rfl⟩
      · refine ⟨["-cluster", "-alb-security-group", "-app-lb", "-lb-target-group",
          "-security-group", "-task-exec-policy", "-task-exec-role",
          "-task-definitions", "-alb-ecs-egress", "-app-service",
          "-dns-record", "-certificate", "-certificate-dns-validation",
          "-certificate-validation", "-scaling-target", "-scaling-policy"], ?_⟩
        simp [Service.construct, Service.createLoadBalancer,
          Service.createSecurityGroup, ServiceResources.otherLogicalNames, hz0]
  obtain ⟨sfx, hsfx⟩ := key
  intro s hs
  rw [hsfx] at hs
  obtain ⟨x, _, rfl⟩ := List.mem_map.mp hs
  exact ⟨x, rfl⟩

/-- C10 witness: on concrete configurations the listener's logical name is
"listener" for two differently named components, and a sample created
resource (the cluster) carries the component name as prefix. -/
theorem C10_listener_fixed_logical_name_witness :
    (Service.construct "dev" "service" cfgTLS).loadBalancer.listener.logicalName =
      "listener" ∧
    (∃ suffix, (Service.construct "dev" "service" cfgTLS).cluster.logicalName =
      "service" ++ suffix) ∧
    (Service.construct "dev" "service" cfgTLS).loadBalancer.listener.logicalName =
      (Service.construct "prod" "other" cfgHTTP).loadBalancer.listener.logicalName := by
  obtain ⟨h1, h2, h3⟩ :=
    C10_listener_fixed_logical_name "dev" "service" "prod" "other" cfgTLS cfgHTTP
  exact ⟨h1, h2 _ (by decide), h3⟩

end AwsContainer
